import Mathlib

/-!
Verification of the OSE Advisory CLI core (`cli/main.py`) against its
natural-language specification.

The embedding below is a shallow translation of the Python source:

* `ServiceConstraints` mirrors the Python class of the same name
  (`cli/main.py`, lines 35-77), with `to_dict` and `is_complete`.
  Python's `float` field `data_volume_gb` is modelled as `Rat`; the
  program never performs floating-point arithmetic on it (it only stores
  the literal `0.0`), so exact rationals are a faithful model.  Pattern
  confidences (`0.92`, `0.95`, `0.98`, `0.87`) are likewise modelled as
  exact rationals: every comparison appearing in the claims is between
  distinct short decimal constants, and their ordering agrees with the
  ordering of the corresponding binary doubles.
* Each elicitation phase `_gather_*` becomes a function from the current
  constraints and the (already validator-approved) user answers to the
  updated constraints.  The interactive prompt library is the external
  `AnswerSource`; its return values are the functions' arguments.
* `helpRecommendation` is the keyword-matching branch of
  `_gather_consistency_requirements` (lines 336-355).
* `generate_blueprint_mock` is `InteractiveAdvisor._generate_blueprint_mock`
  (lines 495-548); the progress-bar animation has no effect on the return
  value and is omitted.
-/

/-- Python truth-value model is not needed: the five `all([...])` operands in
`is_complete` are a string (truthy iff non-empty) or a comparison, translated
directly below.  Values serialisable by `to_dict`: strings, ints, a rational
(for the Python float) and string lists. -/
inductive FieldVal where
  | s (v : String)
  | i (v : Int)
  | q (v : Rat)
  | l (v : List String)
deriving DecidableEq, Repr

/-- `ServiceConstraints.__init__` field layout (`cli/main.py` lines 44-53).
Python `int` is modelled as `Int`, `float` as `Rat`, `List[str]` as
`List String`. -/
structure ServiceConstraints where
  service_name : String
  service_type : String
  throughput_tps : Int
  latency_p99_ms : Int
  consistency_model : String
  integrations : List String
  data_volume_gb : Rat
  team_size : Int
  deployment_target : String
deriving DecidableEq, Repr

/-- The state constructed by `ServiceConstraints.__init__`. -/
def ServiceConstraints.init : ServiceConstraints :=
  { service_name := ""
    service_type := ""
    throughput_tps := 0
    latency_p99_ms := 0
    consistency_model := ""
    integrations := []
    data_volume_gb := 0
    team_size := 0
    deployment_target := "kubernetes" }

/-- `ServiceConstraints.to_dict` (lines 55-67): the serialized snapshot, as an
ordered association list mirroring the Python dict literal. -/
def ServiceConstraints.to_dict (c : ServiceConstraints) : List (String × FieldVal) :=
  [ ("service_name", .s c.service_name)
  , ("service_type", .s c.service_type)
  , ("throughput_tps", .i c.throughput_tps)
  , ("latency_p99_ms", .i c.latency_p99_ms)
  , ("consistency_model", .s c.consistency_model)
  , ("integrations", .l c.integrations)
  , ("data_volume_gb", .q c.data_volume_gb)
  , ("team_size", .i c.team_size)
  , ("deployment_target", .s c.deployment_target) ]

/-- `ServiceConstraints.is_complete` (lines 69-77): `all` of the five listed
operands, where a Python string is truthy iff non-empty. -/
def ServiceConstraints.is_complete (c : ServiceConstraints) : Bool :=
  (c.service_name != "") &&
  (c.service_type != "") &&
  (c.throughput_tps > 0) &&
  (c.latency_p99_ms > 0) &&
  (c.consistency_model != "")

/-- Python's `needle in hay` substring test on character lists. -/
def strHasSub : List Char → List Char → Bool
  | [], needle => needle.isEmpty
  | c :: t, needle => needle.isPrefixOf (c :: t) || strHasSub t needle

/-- Python's `str.lower()`.  The source only lowercases ASCII keyword text, for
which `Char.toLower` (basic-latin lowering) agrees with Python. -/
def pyLower (s : String) : String :=
  ⟨s.data.map Char.toLower⟩

/-- `strong_indicators` keyword table (lines 337-338). -/
def strong_indicators : List String :=
  ["money", "payment", "financial", "transaction",
   "inventory", "stock", "order", "auth", "security"]

/-- `eventual_indicators` keyword table (lines 339-340). -/
def eventual_indicators : List String :=
  ["feed", "timeline", "social", "analytics",
   "recommendation", "cache", "view", "read"]

/-- Does the lower-cased use case contain the given keyword
(`indicator in use_case_lower`, line 344/348)? -/
def matchesKeyword (useCase : String) (kw : String) : Bool :=
  strHasSub (pyLower useCase).data kw.data

/-- The keyword-matching recommendation computed by the "help me decide"
branch of `_gather_consistency_requirements` (lines 344-355): strong keywords
are checked first, then eventual keywords, and the final `else` defaults to
`"strong"`. -/
def helpRecommendation (useCase : String) : String :=
  if strong_indicators.any (fun k => matchesKeyword useCase k) then "strong"
  else if eventual_indicators.any (fun k => matchesKeyword useCase k) then "eventual"
  else "strong"

/-- The spec's KeywordClassifier view of lines 344-355: the same three
branches, with the no-match branch reported as `"undetermined"` instead of
being fused with the caller's default-to-strong policy.  The code inlines the
classifier, so the `undetermined` outcome is visible only as the `else`
branch (lines 352-355) whose policy is to recommend `"strong"`. -/
def classifyUseCase (useCase : String) : String :=
  if strong_indicators.any (fun k => matchesKeyword useCase k) then "strong"
  else if eventual_indicators.any (fun k => matchesKeyword useCase k) then "eventual"
  else "undetermined"

/-- Phase 1, `_gather_basic_identity` (lines 144-219): writes the validated
service name and the selected service type. -/
def gather_basic_identity (c : ServiceConstraints)
    (name choice : String) : ServiceConstraints :=
  { c with service_name := name, service_type := choice }

/-- Phase 2, `_gather_performance_requirements` (lines 221-282): writes the
validated throughput and latency (validators force positive integers). -/
def gather_performance_requirements (c : ServiceConstraints)
    (tps lat : Int) : ServiceConstraints :=
  { c with throughput_tps := tps, latency_p99_ms := lat }

/-- Phase 3, `_gather_consistency_requirements` (lines 284-389).
`choice` is the value returned by the consistency select (one of `"strong"`,
`"eventual"`, `"help"`); when it is `"help"`, `useCase` is the free-text
answer, `confirmed` the confirmation answer, and `manual` the fallback binary
select (one of `"strong"`, `"eventual"`). -/
def gather_consistency_requirements (c : ServiceConstraints)
    (choice useCase : String) (confirmed : Bool) (manual : String) :
    ServiceConstraints :=
  let finalChoice :=
    if choice == "help" then
      let recommendation := helpRecommendation useCase
      if confirmed then recommendation else manual
    else choice
  { c with consistency_model := finalChoice }

/-- Phase 4, `_gather_integration_requirements` (lines 391-434): stores the
checkbox selection with `'none'` filtered out. -/
def gather_integration_requirements (c : ServiceConstraints)
    (selected : List String) : ServiceConstraints :=
  { c with integrations := selected.filter (fun s => s != "none") }

/-- Phase 5, `_gather_team_context` (lines 436-466): writes the validated
team size. -/
def gather_team_context (c : ServiceConstraints) (size : Int) :
    ServiceConstraints :=
  { c with team_size := size }

/-- One elicitation phase together with the answers it consumes. -/
inductive PhaseStep where
  | identity (name choice : String)
  | performance (tps lat : Int)
  | consistency (choice useCase : String) (confirmed : Bool) (manual : String)
  | integration (selected : List String)
  | team (size : Int)
deriving DecidableEq, Repr

/-- Dispatch a phase onto the constraint state. -/
def runPhase (c : ServiceConstraints) : PhaseStep → ServiceConstraints
  | .identity n t => gather_basic_identity c n t
  | .performance t l => gather_performance_requirements c t l
  | .consistency ch u cf m => gather_consistency_requirements c ch u cf m
  | .integration sel => gather_integration_requirements c sel
  | .team s => gather_team_context c s

/-- The `init` command's optional `--service-name` preset (lines 663-664):
`if service_name:` stores it only when non-empty. -/
def initialConstraints : Option String → ServiceConstraints
  | none => ServiceConstraints.init
  | some n =>
      if n == "" then ServiceConstraints.init
      else { ServiceConstraints.init with service_name := n }

/-- A recommended pattern entry of the mock blueprint. -/
structure PatternRec where
  id : String
  name : String
  confidence : Rat
  rationale : String
deriving DecidableEq, Repr

/-- An artifact entry of the mock blueprint. -/
structure Artifact where
  type : String
  path : String
deriving DecidableEq, Repr

/-- The blueprint dict returned by `_generate_blueprint_mock` (lines 538-548). -/
structure Blueprint where
  service_name : String
  confidence : Rat
  patterns : List PatternRec
  artifacts : List Artifact
deriving DecidableEq, Repr

/-- The consistency-triggered pattern appended at lines 516-521. -/
def outboxPattern : PatternRec :=
  { id := "pattern-023"
    name := "Transactional Outbox Pattern"
    confidence := 0.92
    rationale := "Ensures atomic state changes with event publishing" }

/-- The throughput-triggered pattern appended at lines 524-529. -/
def actorPattern : PatternRec :=
  { id := "pattern-001"
    name := "Actor Mailbox Backpressure"
    confidence := 0.95
    rationale := "Handles high load with graceful degradation" }

/-- The universal observability pattern appended at lines 531-536. -/
def otelPattern : PatternRec :=
  { id := "pattern-007"
    name := "OpenTelemetry Instrumentation"
    confidence := 0.98
    rationale := "Essential observability for all production services" }

/-- `InteractiveAdvisor._generate_blueprint_mock` (lines 495-548).  The
progress-bar animation (lines 501-510) affects no returned data and is
omitted; the returned dict is translated field by field. -/
def generate_blueprint_mock (c : ServiceConstraints) : Blueprint :=
  let patterns : List PatternRec := []
  let patterns :=
    if c.consistency_model == "strong" then patterns ++ [outboxPattern]
    else patterns
  let patterns :=
    if c.throughput_tps > 1000 then patterns ++ [actorPattern]
    else patterns
  let patterns := patterns ++ [otelPattern]
  { service_name := c.service_name
    confidence := 0.87
    patterns := patterns
    artifacts :=
      [ { type := "proto"
          path := "proto/" ++ c.service_name ++ "/v1/service.proto" }
      , { type := "sql", path := "db/schema.sql" }
      , { type := "kubernetes", path := "deploy/k8s/deployment.yaml" }
      , { type := "markdown", path := "docs/ARCHITECTURE.md" } ] }

/-- A single field assignment on `ServiceConstraints`, used to state that
`is_complete` does not depend on the order in which the elicitation phases
assigned the fields. -/
inductive FieldAssign where
  | name (v : String)
  | stype (v : String)
  | tps (v : Int)
  | latency (v : Int)
  | consistency (v : String)
  | integrations (v : List String)
  | teamSize (v : Int)
deriving DecidableEq, Repr

/-- Which field a `FieldAssign` writes. -/
def FieldAssign.tag : FieldAssign → Nat
  | .name _ => 0
  | .stype _ => 1
  | .tps _ => 2
  | .latency _ => 3
  | .consistency _ => 4
  | .integrations _ => 5
  | .teamSize _ => 6

/-- Apply a field assignment to the constraint state. -/
def applyAssign (c : ServiceConstraints) : FieldAssign → ServiceConstraints
  | .name v => { c with service_name := v }
  | .stype v => { c with service_type := v }
  | .tps v => { c with throughput_tps := v }
  | .latency v => { c with latency_p99_ms := v }
  | .consistency v => { c with consistency_model := v }
  | .integrations v => { c with integrations := v }
  | .teamSize v => { c with team_size := v }

/-! ## Example constraint values used by counterexamples and witnesses -/

/-- A complete constraint set with strong consistency and throughput below the
high-load threshold (used for claim C1). -/
def cStrongLow : ServiceConstraints :=
  { service_name := "billing"
    service_type := "api"
    throughput_tps := 500
    latency_p99_ms := 100
    consistency_model := "strong"
    integrations := ["postgresql"]
    data_volume_gb := 0
    team_size := 3
    deployment_target := "kubernetes" }

/-- Scenario A of the spec: throughput 2000, strong consistency. -/
def cScenarioA : ServiceConstraints :=
  { service_name := "orders"
    service_type := "api"
    throughput_tps := 2000
    latency_p99_ms := 50
    consistency_model := "strong"
    integrations := ["kafka", "postgresql"]
    data_volume_gb := 0
    team_size := 4
    deployment_target := "kubernetes" }

/-- Scenario B of the spec: throughput 100, eventual consistency. -/
def cScenarioB : ServiceConstraints :=
  { service_name := "activity-feed"
    service_type := "event_processor"
    throughput_tps := 100
    latency_p99_ms := 200
    consistency_model := "eventual"
    integrations := ["redis"]
    data_volume_gb := 0
    team_size := 2
    deployment_target := "kubernetes" }

/-! ## Helper lemmas -/

/-- The pattern list of the mock blueprint, written as one append chain. -/
theorem patterns_eq (c : ServiceConstraints) :
    (generate_blueprint_mock c).patterns =
      (if c.consistency_model == "strong" then [outboxPattern] else []) ++
        ((if c.throughput_tps > 1000 then [actorPattern] else []) ++
          [otelPattern]) := by
  simp only [generate_blueprint_mock]
  split <;> split <;> simp

/-- The keyword branch always recommends one of the two real models. -/
theorem helpRecommendation_cases (s : String) :
    helpRecommendation s = "strong" ∨ helpRecommendation s = "eventual" := by
  unfold helpRecommendation
  split
  · exact Or.inl rfl
  · split
    · exact Or.inr rfl
    · exact Or.inl rfl

/-- Assignments to distinct fields commute. -/
theorem applyAssign_comm (c : ServiceConstraints) (a b : FieldAssign)
    (h : a.tag ≠ b.tag) :
    applyAssign (applyAssign c a) b = applyAssign (applyAssign c b) a := by
  cases a <;> cases b <;> first
    | exact absurd rfl h
    | rfl

/-! ## Claims -/

/-- Claim C1, counterexample: the pattern list is NOT ordered by descending
confidence.  On the complete constraint set `cStrongLow` (strong consistency,
throughput 500) the generated list is
`[Transactional Outbox (0.92), OpenTelemetry (0.98)]`, and the first entry's
confidence is strictly below the second's. -/
theorem C1_counterexample :
    cStrongLow.is_complete = true ∧
    ¬ List.Pairwise (fun p q : PatternRec => q.confidence ≤ p.confidence)
        (generate_blueprint_mock cStrongLow).patterns := by
  have hp : (generate_blueprint_mock cStrongLow).patterns =
      [outboxPattern, otelPattern] := by
    rw [patterns_eq]
    norm_num [cStrongLow]
  refine ⟨by decide, ?_⟩
  rw [hp]
  norm_num [List.pairwise_cons, outboxPattern, otelPattern]

/-- Claim C1 (amended): the code never sorts; patterns are appended in the
fixed source order (consistency-triggered outbox, then throughput-triggered
actor, then the universal observability pattern), whose base confidences
ascend (0.92 ≤ 0.95 ≤ 0.98).  Hence for every complete constraint set each
pattern's confidence is less than or equal to that of every pattern that
follows it. -/
theorem C1_amended_ascending (c : ServiceConstraints)
    (_h : c.is_complete = true) :
    List.Pairwise (fun p q : PatternRec => p.confidence ≤ q.confidence)
      (generate_blueprint_mock c).patterns := by
  rw [patterns_eq c]
  split <;> split <;>
    norm_num [List.pairwise_cons, outboxPattern, actorPattern, otelPattern]

/-- Claim C1 witness: the amended ordering property at the concrete complete
constraint set `cStrongLow`. -/
theorem C1_amended_ascending_witness :
    List.Pairwise (fun p q : PatternRec => p.confidence ≤ q.confidence)
      (generate_blueprint_mock cStrongLow).patterns :=
  C1_amended_ascending cStrongLow (by decide)

/-- Claim C2, counterexample: on the freshly initialised (hence incomplete)
constraint set, blueprint generation does not fail — no
`IncompleteConstraintsError` exists anywhere in the code — and it returns a
non-empty pattern list. -/
theorem C2_counterexample :
    ServiceConstraints.init.is_complete = false ∧
    (generate_blueprint_mock ServiceConstraints.init).patterns ≠ [] := by
  have hp : (generate_blueprint_mock ServiceConstraints.init).patterns =
      [otelPattern] := by
    rw [patterns_eq]
    simp [ServiceConstraints.init]
  refine ⟨by decide, ?_⟩
  rw [hp]
  simp

/-- Claim C2 (amended): blueprint generation performs no completeness check
and has no failure path; it is a total function that, on every constraint set
(complete or not), returns a blueprint whose pattern list contains the
universal observability pattern and is in particular non-empty. -/
theorem C2_amended_total (c : ServiceConstraints) :
    otelPattern ∈ (generate_blueprint_mock c).patterns ∧
    (generate_blueprint_mock c).patterns ≠ [] := by
  rw [patterns_eq c]
  constructor
  · simp
  · simp

/-- Claim C3: `is_complete` returns true iff the service name is non-empty,
the service type is set, throughput and latency are positive, and the
consistency model is set; `integrations` and `team_size` (and the remaining
fields) are irrelevant; and because `is_complete` reads only the final record
state, the result is unchanged under any reordering of the (per-field)
assignments that produced it. -/
theorem C3_is_complete_iff :
    (∀ c : ServiceConstraints,
      c.is_complete = true ↔
        (c.service_name ≠ "" ∧ c.service_type ≠ "" ∧
         0 < c.throughput_tps ∧ 0 < c.latency_p99_ms ∧
         c.consistency_model ≠ "")) ∧
    (∀ (c : ServiceConstraints) (ints : List String) (ts : Int),
      ({ c with integrations := ints, team_size := ts } :
          ServiceConstraints).is_complete = c.is_complete) ∧
    (∀ (l₁ l₂ : List FieldAssign), l₁.Perm l₂ →
      l₁.Pairwise (fun a b => a.tag ≠ b.tag) →
      ∀ c : ServiceConstraints,
        (l₁.foldl applyAssign c).is_complete =
          (l₂.foldl applyAssign c).is_complete) := by
  refine ⟨?_, ?_, ?_⟩
  · intro c
    simp [ServiceConstraints.is_complete, and_assoc]
  · intro c ints ts
    rfl
  · intro l₁ l₂ hperm hpw c
    have hcomm : ∀ x ∈ l₁, ∀ y ∈ l₁, ∀ z,
        applyAssign (applyAssign z x) y = applyAssign (applyAssign z y) x := by
      intro x hx y hy z
      by_cases hxy : x = y
      · subst hxy; rfl
      · exact applyAssign_comm z x y
          (hpw.forall (fun _ _ h => Ne.symm h) hx hy hxy)
    rw [hperm.foldl_eq' hcomm c]

/-- Claim C3 witness: the characterisation evaluated on the concrete complete
constraint set, and order-independence on a concrete pair of permuted
assignment lists. -/
theorem C3_is_complete_iff_witness :
    (cStrongLow.is_complete = true ↔
      (cStrongLow.service_name ≠ "" ∧ cStrongLow.service_type ≠ "" ∧
       0 < cStrongLow.throughput_tps ∧ 0 < cStrongLow.latency_p99_ms ∧
       cStrongLow.consistency_model ≠ "")) ∧
    ([FieldAssign.name "billing", FieldAssign.tps 500].foldl applyAssign
        ServiceConstraints.init).is_complete =
      ([FieldAssign.tps 500, FieldAssign.name "billing"].foldl applyAssign
        ServiceConstraints.init).is_complete :=
  ⟨C3_is_complete_iff.1 cStrongLow,
   C3_is_complete_iff.2.2 [FieldAssign.name "billing", FieldAssign.tps 500]
     [FieldAssign.tps 500, FieldAssign.name "billing"]
     (List.Perm.swap (FieldAssign.tps 500) (FieldAssign.name "billing") [])
     (by decide) ServiceConstraints.init⟩

/-- Claim C4: if the free-text input contains (case-insensitively, as a
substring) a strong-set keyword — in particular also when it additionally
contains an eventual-set keyword — the classifier returns `strong`, because
the strong set is checked first; and the concrete input
`"this tracks payment transactions"` classifies as strong.  The second
hypothesis (an eventual keyword is also present) mirrors the claim and is not
needed for the conclusion. -/
theorem C4_strong_precedence (s : String)
    (hstrong : strong_indicators.any (fun k => matchesKeyword s k) = true)
    (_heventual : eventual_indicators.any (fun k => matchesKeyword s k) = true) :
    classifyUseCase s = "strong" ∧ helpRecommendation s = "strong" ∧
    classifyUseCase "this tracks payment transactions" = "strong" := by
  refine ⟨?_, ?_, by decide⟩ <;>
    simp [classifyUseCase, helpRecommendation, hstrong]

/-- Claim C4 witness: `"payment feed"` contains the strong keyword
`"payment"` and the eventual keyword `"feed"`, and classifies as strong. -/
theorem C4_strong_precedence_witness :
    classifyUseCase "payment feed" = "strong" ∧
    helpRecommendation "payment feed" = "strong" ∧
    classifyUseCase "this tracks payment transactions" = "strong" :=
  C4_strong_precedence "payment feed" (by decide) (by decide)

/-- Claim C5: on input matching no keyword of either set the classifier
returns `"undetermined"` — a value distinct from `"strong"` and
`"eventual"` — and (being a total function) never raises; the caller's
inlined policy (the `else` branch of lines 352-355) then recommends
`"strong"`. -/
theorem C5_undetermined_defaults_strong (s : String)
    (hs : strong_indicators.any (fun k => matchesKeyword s k) = false)
    (he : eventual_indicators.any (fun k => matchesKeyword s k) = false) :
    classifyUseCase s = "undetermined" ∧
    ("undetermined" : String) ≠ "strong" ∧
    ("undetermined" : String) ≠ "eventual" ∧
    helpRecommendation s = "strong" := by
  refine ⟨?_, by decide, by decide, ?_⟩ <;>
    simp [classifyUseCase, helpRecommendation, hs, he]

/-- Claim C5 witness: `"hello world"` matches no keyword, classifies as
undetermined, and the caller defaults to strong. -/
theorem C5_undetermined_defaults_strong_witness :
    classifyUseCase "hello world" = "undetermined" ∧
    ("undetermined" : String) ≠ "strong" ∧
    ("undetermined" : String) ≠ "eventual" ∧
    helpRecommendation "hello world" = "strong" :=
  C5_undetermined_defaults_strong "hello world" (by decide) (by decide)

/-- Claim C6: blueprint generation is deterministic — it is a pure function
of the constraint set, so equal inputs produce identical blueprints, in
particular identical pattern lists (ids, names, confidences, rationales and
their order) and identical overall confidence. -/
theorem C6_deterministic (c₁ c₂ : ServiceConstraints) (h : c₁ = c₂) :
    generate_blueprint_mock c₁ = generate_blueprint_mock c₂ ∧
    (generate_blueprint_mock c₁).patterns =
      (generate_blueprint_mock c₂).patterns ∧
    (generate_blueprint_mock c₁).confidence =
      (generate_blueprint_mock c₂).confidence := by
  subst h
  exact ⟨rfl, rfl, rfl⟩

/-- Claim C6 witness: determinism instantiated at the concrete complete
constraint set `cStrongLow`. -/
theorem C6_deterministic_witness :
    generate_blueprint_mock cStrongLow = generate_blueprint_mock cStrongLow ∧
    (generate_blueprint_mock cStrongLow).patterns =
      (generate_blueprint_mock cStrongLow).patterns ∧
    (generate_blueprint_mock cStrongLow).confidence =
      (generate_blueprint_mock cStrongLow).confidence :=
  C6_deterministic cStrongLow cStrongLow rfl

/-- Claim C7 (Scenario A): with throughput 2000 and strong consistency the
generated pattern list contains the throughput-triggered Actor Mailbox
Backpressure pattern, the consistency-triggered Transactional Outbox pattern
and the universal OpenTelemetry pattern, hence has length at least 3. -/
theorem C7_scenario_a (c : ServiceConstraints)
    (ht : c.throughput_tps = 2000) (hc : c.consistency_model = "strong") :
    actorPattern ∈ (generate_blueprint_mock c).patterns ∧
    outboxPattern ∈ (generate_blueprint_mock c).patterns ∧
    otelPattern ∈ (generate_blueprint_mock c).patterns ∧
    3 ≤ (generate_blueprint_mock c).patterns.length := by
  rw [patterns_eq c, ht, hc]
  refine ⟨by simp, by simp, by simp, by simp⟩

/-- Claim C7 witness: Scenario A at the concrete constraint set
`cScenarioA`. -/
theorem C7_scenario_a_witness :
    actorPattern ∈ (generate_blueprint_mock cScenarioA).patterns ∧
    outboxPattern ∈ (generate_blueprint_mock cScenarioA).patterns ∧
    otelPattern ∈ (generate_blueprint_mock cScenarioA).patterns ∧
    3 ≤ (generate_blueprint_mock cScenarioA).patterns.length :=
  C7_scenario_a cScenarioA rfl rfl

/-- Claim C8 (Scenario B): with throughput 100 and eventual consistency the
generated pattern list contains neither the Actor Mailbox Backpressure
pattern nor the Transactional Outbox pattern. -/
theorem C8_scenario_b (c : ServiceConstraints)
    (ht : c.throughput_tps = 100) (hc : c.consistency_model = "eventual") :
    actorPattern ∉ (generate_blueprint_mock c).patterns ∧
    outboxPattern ∉ (generate_blueprint_mock c).patterns := by
  rw [patterns_eq c, ht, hc]
  constructor <;>
    simp [outboxPattern, actorPattern, otelPattern]

/-- Claim C8 witness: Scenario B at the concrete constraint set
`cScenarioB`. -/
theorem C8_scenario_b_witness :
    actorPattern ∉ (generate_blueprint_mock cScenarioB).patterns ∧
    outboxPattern ∉ (generate_blueprint_mock cScenarioB).patterns :=
  C8_scenario_b cScenarioB rfl rfl

/-- Claim C9: the consistency phase always writes exactly one of `"strong"`
or `"eventual"` into the constraint set — on the direct branches, and on the
"help" branch whether the classifier's recommendation is confirmed or
rejected (the manual fallback offers only the two real models).  The value is
in particular never `"help"`, `"undetermined"`, or empty. -/
theorem C9_consistency_phase_total (c : ServiceConstraints)
    (choice useCase : String) (confirmed : Bool) (manual : String)
    (hchoice : choice = "strong" ∨ choice = "eventual" ∨ choice = "help")
    (hmanual : manual = "strong" ∨ manual = "eventual") :
    ((gather_consistency_requirements c choice useCase confirmed
        manual).consistency_model = "strong" ∨
     (gather_consistency_requirements c choice useCase confirmed
        manual).consistency_model = "eventual") ∧
    (gather_consistency_requirements c choice useCase confirmed
        manual).consistency_model ≠ "help" ∧
    (gather_consistency_requirements c choice useCase confirmed
        manual).consistency_model ≠ "undetermined" ∧
    (gather_consistency_requirements c choice useCase confirmed
        manual).consistency_model ≠ "" := by
  have hmem : (gather_consistency_requirements c choice useCase confirmed
      manual).consistency_model = "strong" ∨
      (gather_consistency_requirements c choice useCase confirmed
        manual).consistency_model = "eventual" := by
    rcases hchoice with h | h | h <;> subst h <;>
      simp only [gather_consistency_requirements]
    · simp
    · simp
    · simp only [beq_self_eq_true, if_true]
      cases confirmed
      · simpa using hmanual
      · simpa using helpRecommendation_cases useCase
  refine ⟨hmem, ?_, ?_, ?_⟩ <;>
    rcases hmem with h | h <;> rw [h] <;> simp

/-- Claim C9 witness: the rejected-recommendation path of the "help"
sub-dialogue at concrete inputs still yields a real consistency model. -/
theorem C9_consistency_phase_total_witness :
    ((gather_consistency_requirements ServiceConstraints.init "help"
        "we run analytics" false "eventual").consistency_model = "strong" ∨
     (gather_consistency_requirements ServiceConstraints.init "help"
        "we run analytics" false "eventual").consistency_model = "eventual") ∧
    (gather_consistency_requirements ServiceConstraints.init "help"
        "we run analytics" false "eventual").consistency_model ≠ "help" ∧
    (gather_consistency_requirements ServiceConstraints.init "help"
        "we run analytics" false "eventual").consistency_model ≠
        "undetermined" ∧
    (gather_consistency_requirements ServiceConstraints.init "help"
        "we run analytics" false "eventual").consistency_model ≠ "" :=
  C9_consistency_phase_total ServiceConstraints.init "help" "we run analytics"
    false "eventual" (Or.inr (Or.inr rfl)) (Or.inr rfl)

/-- Claim C10: no elicitation phase writes `data_volume_gb` or
`deployment_target`, so after any sequence of phases (run from a fresh
session, optionally with the `--service-name` preset) the state — and hence
every serialized snapshot, including one persisted on interruption — has
`data_volume_gb = 0` and `deployment_target = "kubernetes"`; and the
`data_volume_gb` key is present in the snapshot. -/
theorem C10_frame_untouched_fields (preset : Option String)
    (steps : List PhaseStep) :
    (steps.foldl runPhase (initialConstraints preset)).data_volume_gb = 0 ∧
    (steps.foldl runPhase (initialConstraints preset)).deployment_target =
      "kubernetes" ∧
    ("data_volume_gb", FieldVal.q 0) ∈
      (steps.foldl runPhase (initialConstraints preset)).to_dict ∧
    ("deployment_target", FieldVal.s "kubernetes") ∈
      (steps.foldl runPhase (initialConstraints preset)).to_dict ∧
    "data_volume_gb" ∈
      ((steps.foldl runPhase (initialConstraints preset)).to_dict).map
        Prod.fst := by
  have key : ∀ (l : List PhaseStep) (c : ServiceConstraints),
      (l.foldl runPhase c).data_volume_gb = c.data_volume_gb ∧
      (l.foldl runPhase c).deployment_target = c.deployment_target := by
    intro l
    induction l with
    | nil => exact fun c => ⟨rfl, rfl⟩
    | cons s t ih =>
      intro c
      have hstep : (runPhase c s).data_volume_gb = c.data_volume_gb ∧
          (runPhase c s).deployment_target = c.deployment_target := by
        cases s <;> exact ⟨rfl, rfl⟩
      rw [List.foldl_cons]
      exact ⟨(ih (runPhase c s)).1.trans hstep.1,
             (ih (runPhase c s)).2.trans hstep.2⟩
  have hinit : (initialConstraints preset).data_volume_gb = 0 ∧
      (initialConstraints preset).deployment_target = "kubernetes" := by
    cases preset with
    | none => exact ⟨rfl, rfl⟩
    | some n =>
      simp only [initialConstraints]
      split <;> exact ⟨rfl, rfl⟩
  have hd := (key steps (initialConstraints preset)).1.trans hinit.1
  have hdep := (key steps (initialConstraints preset)).2.trans hinit.2
  refine ⟨hd, hdep, ?_, ?_, ?_⟩ <;>
    simp [ServiceConstraints.to_dict, hd, hdep]
